import Mathlib

/-!
Shallow embedding of the account-manager request-validation engine
(src/main.py) and proofs of the specification's claims about it.

Python values appearing in JSON requests are modelled by `Val`; dictionaries
are association lists in insertion order; Python exceptions are modelled by
the `Except PyError` monad.  Functions keep the source's names.
-/

/-- A Python/JSON value as it occurs in a request payload. -/
inductive Val where
  | vStr (s : String)
  | vBool (b : Bool)
  | vInt (n : Int)
  | vNone
deriving DecidableEq

/-- A Python exception, as far as the validation code distinguishes them. -/
inductive PyError where
  | attributeError (attr : String)
  | typeError (msg : String)
  | keyError (key : String)
  | exc (msg : String)
deriving DecidableEq

/-- `str(e)` for a modelled exception (used in `f"... {str(e)}"` messages). -/
def PyError.str : PyError → String
  | .attributeError a => "object has no attribute " ++ a
  | .typeError m => m
  | .keyError k => "'" ++ k ++ "'"
  | .exc m => m

/-- Python truthiness of a modelled value. -/
def Val.truthy : Val → Bool
  | .vStr s => !(s == "")
  | .vBool b => b
  | .vInt n => !(n == 0)
  | .vNone => false

/-- `str(v)` for a modelled value. -/
def Val.pyStr : Val → String
  | .vStr s => s
  | .vBool b => if b then "True" else "False"
  | .vInt n => toString n
  | .vNone => "None"

/-- A Python dict with string keys, in insertion order. -/
abbrev Attrs := List (String × Val)

/-- `d.get(k)`: the value stored under `k`, if any. -/
def dictGet (d : Attrs) (k : String) : Option Val :=
  (d.find? (fun kv => kv.1 == k)).map Prod.snd

/-- `d.keys()` as a list, in insertion order. -/
def dictKeys (d : Attrs) : List String := d.map Prod.fst

/-- The `attributes` member of a request: a JSON object or a JSON list. -/
inductive AttrPayload where
  | dict (d : Attrs)
  | list (l : List String)

/-- A request dictionary, per the `request_template` of the source:
`function`, `object_type`, `identifier` and `attributes`.  The first three are
read with `.get`, which yields `None` when the key is absent, so absence is
modelled as `Val.vNone`; `attributes` is read both with `.get` (with a default)
and by indexing, so its absence is kept distinguishable. -/
structure Request where
  function : Val
  object_type : Val
  identifier : Val
  attributes : Option AttrPayload

/-- `object_types = ["venue", "artist", "attendee", "event", "ticket"]`. -/
def object_types : List String := ["venue", "artist", "attendee", "event", "ticket"]

/-- `account_types`: the object types that are not event or ticket. -/
def account_types : List String :=
  object_types.filter (fun ot => !(["event", "ticket"].contains ot))

/-- `non_account_types`: the object types that are not account types. -/
def non_account_types : List String :=
  object_types.filter (fun ot => !(account_types.contains ot))

/-- `attributes_schema` of the source, an association list per object type. -/
def attributes_schema : List (String × List String) :=
  [("venue",
    ["user_id", "venue_name", "email", "street_address", "city", "postcode",
     "bio", "status"]),
   ("artist",
    ["user_id", "artist_name", "email", "street_address", "city", "postcode",
     "genres", "spotify_artist_id", "bio", "status"]),
   ("attendee",
    ["user_id", "first_name", "last_name", "email", "street_address", "city",
     "postcode", "bio", "status"]),
   ("event",
    ["event_id", "venue_id", "event_name", "date_time", "total_tickets",
     "sold_tickets", "artist_ids", "status"]),
   ("ticket",
    ["ticket_id", "event_id", "attendee_id", "price", "redeemed", "status"])]

/-- `attributes_schema.get(object_type, [])` for a string key. -/
def schemaLookup (ot : String) : List String :=
  ((attributes_schema.find? (fun p => p.1 == ot)).map Prod.snd).getD []

/-- `attributes_schema.get(object_type, [])`: a non-string key is never equal
to a string key of the dict, so it yields the default. -/
def schemaGetVal : Val → List String
  | .vStr s => schemaLookup s
  | _ => []

/-- Python `v in l` for a modelled value against a list of strings. -/
def valMemStr (v : Val) (l : List String) : Bool :=
  match v with
  | .vStr s => l.contains s
  | _ => false

/-- The string content of a value known to be a string (used only where the
source has already established that the value is a string). -/
def valToStr : Val → String
  | .vStr s => s
  | _ => ""

/-- `identifier.isdigit()` for a string: false on the empty string, else true
exactly when every character is a decimal digit. -/
def str_isdigit (s : String) : Bool := !(s == "") && s.data.all Char.isDigit

/-- `is_valid_auth_id`: a purely numeric string of length 10 to 21.  Calling
`.isdigit()` on a non-string raises `AttributeError`. -/
def is_valid_auth_id : Val → Except PyError Bool
  | .vStr s =>
      if !(str_isdigit s) then .ok false
      else if !(10 ≤ s.length && s.length ≤ 21) then .ok false
      else .ok true
  | _ => .error (.attributeError "isdigit")

/-- One character of the Spotify user-id character class `[a-zA-Z0-9-_]`. -/
def spotifyChar (c : Char) : Bool :=
  c.isAlpha || c.isDigit || c == '-' || c == '_'

/-- `re.match(r"^[a-zA-Z0-9-_]+$", s)` is some match. -/
def spotify_pattern_match (s : String) : Bool :=
  !(s == "") && s.data.all spotifyChar

/-- `is_valid_spotify_user_id`: pattern match plus length 8 to 32.  `re.match`
on a non-string raises `TypeError`. -/
def is_valid_spotify_user_id : Val → Except PyError Bool
  | .vStr s =>
      if !(spotify_pattern_match s) then .ok false
      else if !(8 ≤ s.length && s.length ≤ 32) then .ok false
      else .ok true
  | _ => .error (.typeError "expected string or bytes-like object")

/-- `extract_and_prepare_attributes`: reads `attributes` (default `{}`) and
`object_type` from the request and drops falsy (empty-string) keys.
`attributes.items()` on a list raises `AttributeError`. -/
def extract_and_prepare_attributes (r : Request) : Except PyError (Val × Attrs) :=
  match r.attributes.getD (.dict []) with
  | .dict attributes => .ok (r.object_type, attributes.filter (fun kv => !(kv.1 == "")))
  | .list _ => .error (.attributeError "items")

/-- The keys of the supplied attributes that are not in the object type's
schema (`undefined_attributes` in the source). -/
def undefined_attributes (validation_attributes : Attrs) (object_type : Val) : List String :=
  (dictKeys validation_attributes).filter
    (fun key => !((schemaGetVal object_type).contains key))

/-- `required_attributes`: the schema's full field set minus
`spotify_artist_id`, `bio` and `status`. -/
def required_attributes (object_type : Val) : List String :=
  (schemaGetVal object_type).filter
    (fun k => !(k == "spotify_artist_id" || k == "bio" || k == "status"))

/-- The required attributes that are not keys of the supplied attributes
(`missing_attributes` in the source). -/
def missing_attributes (validation_attributes : Attrs) (object_type : Val) : List String :=
  (required_attributes object_type).filter
    (fun key => !((dictKeys validation_attributes).contains key))

/-- The keys of the supplied attributes whose value equals the empty string
(`empty_value_attributes` in the source). -/
def empty_value_attributes (validation_attributes : Attrs) : List String :=
  (validation_attributes.filter (fun kv => kv.2 == Val.vStr "")).map Prod.fst

/-- `check_for_extra_attributes`: rejects undefined attribute keys, then
attribute values equal to the empty string. -/
def check_for_extra_attributes (validation_attributes : Attrs) (object_type : Val) :
    Bool × String :=
  let undef := undefined_attributes validation_attributes object_type
  if !undef.isEmpty then
    (false, "Additional, undefined attributes cannot be specified: "
      ++ String.intercalate ", " undef ++ ". ")
  else
    let empties := empty_value_attributes validation_attributes
    if !empties.isEmpty then
      (false, "Cannot specify attributes with empty values: "
        ++ String.intercalate ", " empties ++ ".")
    else (true, "")

/-- `check_required_attributes`: rejects undefined attribute keys, then
missing required keys, then attribute values equal to the empty string. -/
def check_required_attributes (validation_attributes : Attrs) (object_type : Val) :
    Bool × String :=
  let undef := undefined_attributes validation_attributes object_type
  if !undef.isEmpty then
    (false, "Additional, undefined attributes cannot be specified: "
      ++ String.intercalate ", " undef ++ ".")
  else
    let missing := missing_attributes validation_attributes object_type
    if !missing.isEmpty then
      (false, "Missing required attributes: "
        ++ String.intercalate ", " missing ++ ".")
    else
      let empties := empty_value_attributes validation_attributes
      if !empties.isEmpty then
        (false, "Cannot specify attributes with empty values: "
          ++ String.intercalate ", " empties ++ ".")
      else (true, "")

/-- The message returned by `validate_create_request` for an invalid Spotify
user id (the source wraps the literal over two physical lines with a
backslash, keeping the eight spaces of indentation inside the string). -/
def spotify_invalid_message : String :=
  "Invalid Spotify User ID -- field requires only the string         of characters following https://open.spotify.com/artist/"

/-- The tail of `validate_create_request`: every specified attribute must have
a (non-empty-string) value. -/
def create_empty_value_check (validation_attributes : Attrs) :
    Except PyError (Bool × String) :=
  if validation_attributes.any (fun kv => kv.2 == Val.vStr "") then
    .ok (false, "Every specified attribute must have a value.")
  else .ok (true, "Request is valid.")

/-- The Spotify-id step of `validate_create_request`:
`if spotify_artist_id and not is_valid_spotify_user_id(spotify_artist_id)`. -/
def create_spotify_check (validation_attributes : Attrs) :
    Except PyError (Bool × String) :=
  let spotify_artist_id := (dictGet validation_attributes "spotify_artist_id").getD Val.vNone
  if spotify_artist_id.truthy then
    match is_valid_spotify_user_id spotify_artist_id with
    | .error e => .error e
    | .ok false => .ok (false, spotify_invalid_message)
    | .ok true => create_empty_value_check validation_attributes
  else create_empty_value_check validation_attributes

/-- `validate_create_request`: required-attribute check, then Spotify-id
check, then empty-value check. -/
def validate_create_request (r : Request) : Except PyError (Bool × String) :=
  match extract_and_prepare_attributes r with
  | .error e => .error e
  | .ok (object_type, validation_attributes) =>
    match check_required_attributes validation_attributes object_type with
    | (false, message) => .ok (false, message)
    | (true, _) => create_spotify_check validation_attributes

/-- `validate_update_request`: at least one attribute, then the
extra-attribute / empty-value check. -/
def validate_update_request (r : Request) : Except PyError (Bool × String) :=
  match extract_and_prepare_attributes r with
  | .error e => .error e
  | .ok (object_type, validation_attributes) =>
    if validation_attributes.isEmpty then
      .ok (false, "At least one attribute must be specified for update.")
    else
      match check_for_extra_attributes validation_attributes object_type with
      | (false, message) => .ok (false, message)
      | (true, _) => .ok (true, "Request is valid.")

/-- `validate_delete_request`: a placeholder, unconditionally valid. -/
def validate_delete_request (_ : Request) : Except PyError (Bool × String) :=
  .ok (true, "Request is valid.")

/-- `extract_and_prepare_attributes_for_get`: reads `attributes` (default
`[]`); a list is converted to a dict mapping each listed name to `True`. -/
def extract_and_prepare_attributes_for_get (r : Request) : Val × Attrs :=
  match r.attributes.getD (.list []) with
  | .list attributes => (r.object_type, attributes.map (fun attr => (attr, Val.vBool true)))
  | .dict attributes => (r.object_type, attributes)

/-- The per-key loop of `validate_queried_attributes`: reject the first key
outside the valid attributes, then the first falsy value. -/
def queried_attributes_loop (valid_attributes : List String) (object_type : Val) :
    Attrs → Bool × String
  | [] => (true, "")
  | (attr, value) :: rest =>
    if !(valid_attributes.contains attr) then
      (false, "Invalid attribute '" ++ attr ++ "' for object_type '"
        ++ valToStr object_type ++ "'.")
    else if !value.truthy then
      (false, "At least one valid attribute must be queried with a true value.")
    else queried_attributes_loop valid_attributes object_type rest

/-- `validate_queried_attributes`. -/
def validate_queried_attributes (queried_attributes : Attrs) (object_type : Val) :
    Bool × String :=
  let valid_attributes := schemaGetVal object_type
  if valMemStr object_type non_account_types then
    (false, "Management of " ++ valToStr object_type ++ "s is handled by a separate API.")
  else if !(valMemStr object_type account_types) then
    (false, "Invalid object type. Must be one of ['venue', 'artist', 'attendee'].")
  else if queried_attributes.isEmpty then
    (false, "At least one valid attribute must be queried.")
  else queried_attributes_loop valid_attributes object_type queried_attributes

/-- `validate_get_request`. -/
def validate_get_request (r : Request) : Except PyError (Bool × String) :=
  let p := extract_and_prepare_attributes_for_get r
  if p.2.isEmpty then .ok (false, "Attributes must be provided for querying.")
  else
    match validate_queried_attributes p.2 p.1 with
    | (false, message) => .ok (false, message)
    | (true, _) => .ok (true, "Request is valid.")

/-- `validate_request`: the shared envelope gate, then dispatch on the
function kind.  `is_valid_auth_id` may raise on a non-string identifier, and
that exception propagates (nothing catches it here). -/
def validate_request (r : Request) : Except PyError (Bool × String) :=
  if !(valMemStr r.function ["get", "create", "update", "delete"]) then
    .ok (false, "Invalid function specified.")
  else if valMemStr r.object_type non_account_types then
    .ok (false, "Management of " ++ valToStr r.object_type ++ "s is handled by a separate API.")
  else if !(valMemStr r.object_type account_types) then
    .ok (false, "Invalid object type. Must be one of ['venue', 'artist', 'attendee'].")
  else
    match is_valid_auth_id r.identifier with
    | .error e => .error e
    | .ok false => .ok (false, "Invalid or missing unique ID.")
    | .ok true =>
      if r.function == Val.vStr "get" then validate_get_request r
      else if r.function == Val.vStr "create" then validate_create_request r
      else if r.function == Val.vStr "update" then validate_update_request r
      else if r.function == Val.vStr "delete" then validate_delete_request r
      else .ok (true, "Request is valid.")

/-- The outcome of `supabase.table(...).insert(...).execute()` as
`create_account` unpacks it: `result, error = ...; result_key, result_value =
result; error_key, error_value = error`. -/
structure InsertOutcome where
  result_key : String
  result_value : List Attrs
  error_key : String
  error_value : Val

/-- `create_account`, parametrised by the outcome of the store insert and of
the confirmation-email send (the two external calls).  An exception in either
is raised inside the function's try block and caught there; the validation
call stands outside the try block, so its exceptions propagate. -/
def create_account (r : Request) (insertResult : Except PyError InsertOutcome)
    (emailResult : Except PyError Unit) : Except PyError (Val × String) :=
  match validate_request r with
  | .error e => .error e
  | .ok (false, validation_message) => .ok (.vNone, validation_message)
  | .ok (true, _) =>
    match r.attributes with
    | none => .error (.keyError "attributes")
    | some (.list _) => .error (.attributeError "items")
    | some (.dict attributes) =>
      match insertResult with
      | .error e => .ok (.vNone, "An exception occurred: " ++ e.str)
      | .ok o =>
        if o.result_key == "data" && !o.result_value.isEmpty then
          let user_id := (dictGet (o.result_value.headD []) "user_id").getD Val.vNone
          match dictGet attributes "email" with
          | none => .ok (.vNone, "An exception occurred: " ++ PyError.str (.keyError "email"))
          | some _ =>
            match emailResult with
            | .error e => .ok (.vNone, "An exception occurred: " ++ e.str)
            | .ok _ => .ok (user_id, "Account creation was successful.")
        else if o.error_value.truthy then
          .ok (.vNone, "An error occurred: " ++ o.error_value.pyStr)
        else .ok (.vNone, "Unexpected response: No data returned after insert.")

/-- The round-trip comparison of `update_account`:
`all(updated_attributes[key] == value for key, value in data_to_update.items())`,
which raises `KeyError` when the echoed row lacks a submitted key (unless an
earlier mismatch already short-circuited the generator). -/
def roundtrip_check (updated_attributes : Attrs) : Attrs → Except PyError Bool
  | [] => .ok true
  | (key, value) :: rest =>
    match dictGet updated_attributes key with
    | none => .error (.keyError key)
    | some w => if w = value then roundtrip_check updated_attributes rest else .ok false

/-- `update_account`, parametrised by the rows the store's update echoes back
(`result.data`); `.error` stands for an exception raised by the store call.
Everything from the store call on sits in the try block, so exceptions there
become `(False, "An exception occurred: ...")`. -/
def update_account (r : Request) (updateResult : Except PyError (List Attrs)) :
    Except PyError (Bool × String) :=
  match validate_request r with
  | .error e => .error e
  | .ok (false, validation_message) => .ok (false, validation_message)
  | .ok (true, _) =>
    match r.attributes with
    | none => .error (.keyError "attributes")
    | some (.list _) => .error (.attributeError "items")
    | some (.dict attributes) =>
      let data_to_update := attributes.filter (fun kv => !(kv.2 == Val.vNone))
      if data_to_update.isEmpty then
        .ok (false, "No valid attributes provided for update.")
      else
        match updateResult with
        | .error e => .ok (false, "An exception occurred: " ++ e.str)
        | .ok [] => .ok (false, "Failed to update account: Record not found.")
        | .ok (row :: _) =>
          match roundtrip_check row data_to_update with
          | .error e => .ok (false, "An exception occurred: " ++ e.str)
          | .ok true => .ok (true, "Account update was successful.")
          | .ok false =>
            .ok (false, "Failed to update account: Attributes not updated as expected.")

/-- Concrete artist create payload covering exactly the required fields. -/
def artistBase : Attrs :=
  [("user_id", .vStr "1234567890"), ("artist_name", .vStr "X"),
   ("email", .vStr "a@b.com"), ("street_address", .vStr "1 Road"),
   ("city", .vStr "London"), ("postcode", .vStr "AB1 2CD"),
   ("genres", .vStr "Jazz")]

/-- `artistBase` plus a non-empty `spotify_artist_id` that fails the Spotify
format check (too short). -/
def artistBadSpotify : Attrs := artistBase ++ [("spotify_artist_id", Val.vStr "ab")]

/-- `artistBase` plus a `spotify_artist_id` that passes the Spotify format
check. -/
def artistGoodSpotify : Attrs := artistBase ++ [("spotify_artist_id", Val.vStr "abcdefgh")]

/-- Concrete venue create payload: all required fields plus an empty-string
key. -/
def venueEmptyKey : Attrs :=
  [("user_id", .vStr "1234567890"), ("venue_name", .vStr "V"),
   ("email", .vStr "a@b.com"), ("street_address", .vStr "1 Road"),
   ("city", .vStr "London"), ("postcode", .vStr "AB1 2CD"),
   ("", .vStr "x")]

/-- Concrete attendee create payload missing most required fields. -/
def attendeePartial : Attrs := [("email", Val.vStr "a@b.com")]

/-- Concrete venue create request whose validation passes. -/
def venueCreateReq : Request :=
  ⟨.vStr "create", .vStr "venue", .vStr "1234567890",
   some (.dict [("user_id", .vStr "1234567890"), ("venue_name", .vStr "V"),
     ("email", .vStr "a@b.com"), ("street_address", .vStr "1 Road"),
     ("city", .vStr "London"), ("postcode", .vStr "AB1 2CD")])⟩

/-- A successful insert outcome echoing the assigned user id. -/
def venueInsertOk : InsertOutcome :=
  ⟨"data", [[("user_id", Val.vStr "42")]], "count", Val.vNone⟩

instance {ε : Type} {α : Type} [DecidableEq ε] [DecidableEq α] : DecidableEq (Except ε α)
  | .error e, .error f => decidable_of_iff (e = f) ⟨fun h => h ▸ rfl, Except.error.inj⟩
  | .error _, .ok _ => isFalse Except.noConfusion
  | .ok _, .error _ => isFalse Except.noConfusion
  | .ok x, .ok y => decidable_of_iff (x = y) ⟨fun h => h ▸ rfl, Except.ok.inj⟩

lemma account_types_eq : account_types = ["venue", "artist", "attendee"] := rfl

lemma mem_account_types_cases {ot : String} (h : ot ∈ account_types) :
    ot = "venue" ∨ ot = "artist" ∨ ot = "attendee" := by
  rw [account_types_eq] at h
  simpa using h

lemma schema_fields_ne_empty {ot : String} (h : ot ∈ account_types) :
    ∀ k ∈ schemaGetVal (.vStr ot), k ≠ "" := by
  rcases mem_account_types_cases h with rfl | rfl | rfl <;> decide

lemma account_not_non_account {ot : String} (h : ot ∈ account_types) :
    valMemStr (.vStr ot) non_account_types = false ∧
      valMemStr (.vStr ot) account_types = true := by
  rcases mem_account_types_cases h with rfl | rfl | rfl <;> exact ⟨rfl, rfl⟩

lemma user_id_required {ot : String} (h : ot ∈ account_types) :
    "user_id" ∈ required_attributes (.vStr ot) := by
  rcases mem_account_types_cases h with rfl | rfl | rfl <;> decide

lemma filter_nonempty_keys_eq_self {attrs : Attrs} (h : ∀ kv ∈ attrs, kv.1 ≠ "") :
    attrs.filter (fun kv => !(kv.1 == "")) = attrs := by
  rw [List.filter_eq_self]
  intro kv hkv
  simpa using h kv hkv

lemma extract_eq_filter (f otv ident : Val) (attrs : Attrs) :
    extract_and_prepare_attributes ⟨f, otv, ident, some (.dict attrs)⟩ =
      .ok (otv, attrs.filter (fun kv => !(kv.1 == ""))) := rfl

lemma undefined_attributes_eq_nil {va : Attrs} {otv : Val}
    (h : ∀ kv ∈ va, kv.1 ∈ schemaGetVal otv) : undefined_attributes va otv = [] := by
  rw [undefined_attributes, List.filter_eq_nil_iff]
  intro k hk
  simp only [dictKeys, List.mem_map] at hk
  obtain ⟨kv, hkv, rfl⟩ := hk
  simp [h kv hkv]

lemma missing_attributes_eq_nil {va : Attrs} {otv : Val}
    (h : ∀ k ∈ required_attributes otv, k ∈ dictKeys va) :
    missing_attributes va otv = [] := by
  rw [missing_attributes, List.filter_eq_nil_iff]
  intro k hk
  simp [h k hk]

lemma empty_value_attributes_eq_nil {va : Attrs}
    (h : ∀ kv ∈ va, kv.2 ≠ Val.vStr "") : empty_value_attributes va = [] := by
  rw [empty_value_attributes]
  rw [List.filter_eq_nil_iff.mpr (fun kv hkv => by simpa using h kv hkv)]
  rfl

lemma check_required_attributes_ok {va : Attrs} {otv : Val}
    (h1 : undefined_attributes va otv = [])
    (h2 : missing_attributes va otv = [])
    (h3 : empty_value_attributes va = []) :
    check_required_attributes va otv = (true, "") := by
  simp [check_required_attributes, h1, h2, h3]

lemma check_required_attributes_missing {va : Attrs} {otv : Val}
    (h1 : undefined_attributes va otv = [])
    (h2 : missing_attributes va otv ≠ []) :
    check_required_attributes va otv =
      (false, "Missing required attributes: "
        ++ String.intercalate ", " (missing_attributes va otv) ++ ".") := by
  simp [check_required_attributes, h1, h2]

lemma check_required_attributes_undef {va : Attrs} {otv : Val}
    (h : undefined_attributes va otv ≠ []) :
    check_required_attributes va otv =
      (false, "Additional, undefined attributes cannot be specified: "
        ++ String.intercalate ", " (undefined_attributes va otv) ++ ".") := by
  simp [check_required_attributes, h]

lemma check_for_extra_attributes_ok {va : Attrs} {otv : Val}
    (h1 : undefined_attributes va otv = [])
    (h3 : empty_value_attributes va = []) :
    check_for_extra_attributes va otv = (true, "") := by
  simp [check_for_extra_attributes, h1, h3]

lemma check_for_extra_attributes_undef {va : Attrs} {otv : Val}
    (h : undefined_attributes va otv ≠ []) :
    check_for_extra_attributes va otv =
      (false, "Additional, undefined attributes cannot be specified: "
        ++ String.intercalate ", " (undefined_attributes va otv) ++ ". ") := by
  simp [check_for_extra_attributes, h]

lemma create_empty_value_check_ok {va : Attrs}
    (h : ∀ kv ∈ va, kv.2 ≠ Val.vStr "") :
    create_empty_value_check va = .ok (true, "Request is valid.") := by
  have hany : va.any (fun kv => kv.2 == Val.vStr "") = false := by
    rw [List.any_eq_false]
    intro kv hkv
    simpa using h kv hkv
  simp [create_empty_value_check, hany]

lemma create_spotify_check_ok {va : Attrs}
    (hspot : ∀ kv ∈ va, kv.1 = "spotify_artist_id" → kv.2.truthy = true →
      is_valid_spotify_user_id kv.2 = .ok true)
    (hne : ∀ kv ∈ va, kv.2 ≠ Val.vStr "") :
    create_spotify_check va = .ok (true, "Request is valid.") := by
  have hempty := create_empty_value_check_ok hne
  rw [create_spotify_check]
  cases hfind : va.find? (fun kv => kv.1 == "spotify_artist_id") with
  | none => simp [dictGet, hfind, Val.truthy, hempty]
  | some kv =>
    have hmem : kv ∈ va := List.mem_of_find?_eq_some hfind
    have hkey : kv.1 = "spotify_artist_id" := by
      have := List.find?_some hfind
      simpa using this
    simp only [dictGet, hfind, Option.map_some', Option.getD_some]
    by_cases htr : kv.2.truthy = true
    · simp [htr, hspot kv hmem hkey htr, hempty]
    · have htf : kv.2.truthy = false := by simpa using htr
      simp [htf, hempty]

lemma validate_create_request_eq_gen (f otv ident : Val) (attrs : Attrs) :
    validate_create_request ⟨f, otv, ident, some (.dict attrs)⟩ =
      (match check_required_attributes (attrs.filter (fun kv => !(kv.1 == ""))) otv with
       | (false, message) => Except.ok (false, message)
       | (true, _) => create_spotify_check (attrs.filter (fun kv => !(kv.1 == "")))) := rfl

lemma validate_update_request_eq_gen (f otv ident : Val) (attrs : Attrs) :
    validate_update_request ⟨f, otv, ident, some (.dict attrs)⟩ =
      (if (attrs.filter (fun kv => !(kv.1 == ""))).isEmpty then
        Except.ok (false, "At least one attribute must be specified for update.")
       else
        match check_for_extra_attributes (attrs.filter (fun kv => !(kv.1 == ""))) otv with
        | (false, message) => Except.ok (false, message)
        | (true, _) => Except.ok (true, "Request is valid.")) := rfl

/-- C1, counterexample: an artist create payload whose keys are a strict
superset of the required fields and a subset of the full field set, with no
empty values, is nevertheless rejected, because its non-empty
`spotify_artist_id` value fails the Spotify format check. -/
theorem create_superset_rejected_on_bad_spotify :
    ((∀ k ∈ required_attributes (Val.vStr "artist"), k ∈ dictKeys artistBadSpotify) ∧
     (∃ k ∈ dictKeys artistBadSpotify, k ∉ required_attributes (Val.vStr "artist")) ∧
     (∀ kv ∈ artistBadSpotify, kv.1 ∈ schemaGetVal (Val.vStr "artist")) ∧
     (∀ kv ∈ artistBadSpotify, kv.2 ≠ Val.vStr "")) ∧
    validate_create_request ⟨Val.vStr "create", Val.vStr "artist", Val.vStr "1234567890",
        some (.dict artistBadSpotify)⟩ =
      .ok (false, spotify_invalid_message) :=
  ⟨by decide, rfl⟩

/-- C1, amended: for every managed account type and attribute mapping whose
keys are a strict superset of the required fields and a subset of the full
field set, with no empty-string value, and whose `spotify_artist_id` value
(when present and truthy) passes the Spotify format check,
`validate_create_request` accepts. -/
theorem create_validation_accepts_required_superset
    (f ident : Val) (ot : String) (attrs : Attrs)
    (hot : ot ∈ account_types)
    (hsub : ∀ kv ∈ attrs, kv.1 ∈ schemaGetVal (Val.vStr ot))
    (hsup : ∀ k ∈ required_attributes (Val.vStr ot), k ∈ dictKeys attrs)
    (hstrict : ∃ k ∈ dictKeys attrs, k ∉ required_attributes (Val.vStr ot))
    (hval : ∀ kv ∈ attrs, kv.2 ≠ Val.vStr "")
    (hspot : ∀ kv ∈ attrs, kv.1 = "spotify_artist_id" → kv.2.truthy = true →
      is_valid_spotify_user_id kv.2 = .ok true) :
    validate_create_request ⟨f, Val.vStr ot, ident, some (.dict attrs)⟩ =
      .ok (true, "Request is valid.") := by
  have hkne : ∀ kv ∈ attrs, kv.1 ≠ "" :=
    fun kv hkv => schema_fields_ne_empty hot _ (hsub kv hkv)
  rw [validate_create_request_eq_gen, filter_nonempty_keys_eq_self hkne,
    check_required_attributes_ok (undefined_attributes_eq_nil hsub)
      (missing_attributes_eq_nil hsup) (empty_value_attributes_eq_nil hval)]
  exact create_spotify_check_ok hspot hval

/-- C1, witness for the amended theorem at a concrete artist payload. -/
theorem create_validation_accepts_required_superset_witness :
    (("artist" ∈ account_types) ∧
     (∀ kv ∈ artistGoodSpotify, kv.1 ∈ schemaGetVal (Val.vStr "artist")) ∧
     (∀ k ∈ required_attributes (Val.vStr "artist"), k ∈ dictKeys artistGoodSpotify) ∧
     (∃ k ∈ dictKeys artistGoodSpotify, k ∉ required_attributes (Val.vStr "artist")) ∧
     (∀ kv ∈ artistGoodSpotify, kv.2 ≠ Val.vStr "") ∧
     (∀ kv ∈ artistGoodSpotify, kv.1 = "spotify_artist_id" → kv.2.truthy = true →
        is_valid_spotify_user_id kv.2 = .ok true)) ∧
    validate_create_request ⟨Val.vStr "create", Val.vStr "artist", Val.vStr "1234567890",
        some (.dict artistGoodSpotify)⟩ =
      .ok (true, "Request is valid.") :=
  ⟨⟨by decide, by decide, by decide, by decide, by decide, by decide⟩,
   create_validation_accepts_required_superset (Val.vStr "create") (Val.vStr "1234567890")
     "artist" artistGoodSpotify (by decide) (by decide) (by decide) (by decide)
     (by decide) (by decide)⟩

/-- C4: for every managed account type and attribute mapping whose keys lie
within the full field set but omit at least one required field,
`validate_create_request` rejects with the missing-attributes message, and the
enumerated list contains every missing required field. -/
theorem create_validation_names_all_missing
    (f ident : Val) (ot : String) (attrs : Attrs)
    (hot : ot ∈ account_types)
    (hsub : ∀ kv ∈ attrs, kv.1 ∈ schemaGetVal (Val.vStr ot))
    (hmiss : ∃ k ∈ required_attributes (Val.vStr ot), k ∉ dictKeys attrs) :
    validate_create_request ⟨f, Val.vStr ot, ident, some (.dict attrs)⟩ =
      .ok (false, "Missing required attributes: "
        ++ String.intercalate ", " (missing_attributes attrs (Val.vStr ot)) ++ ".") ∧
    ∀ k ∈ required_attributes (Val.vStr ot), k ∉ dictKeys attrs →
      k ∈ missing_attributes attrs (Val.vStr ot) := by
  have hkne : ∀ kv ∈ attrs, kv.1 ≠ "" :=
    fun kv hkv => schema_fields_ne_empty hot _ (hsub kv hkv)
  have hmem : ∀ k ∈ required_attributes (Val.vStr ot), k ∉ dictKeys attrs →
      k ∈ missing_attributes attrs (Val.vStr ot) := by
    intro k hk hnk
    rw [missing_attributes, List.mem_filter]
    exact ⟨hk, by simp [hnk]⟩
  have hm2 : missing_attributes attrs (Val.vStr ot) ≠ [] := by
    obtain ⟨k, hk, hnk⟩ := hmiss
    intro hnil
    have := hmem k hk hnk
    rw [hnil] at this
    cases this
  refine ⟨?_, hmem⟩
  rw [validate_create_request_eq_gen, filter_nonempty_keys_eq_self hkne,
    check_required_attributes_missing (undefined_attributes_eq_nil hsub) hm2]

/-- C4, witness at a concrete attendee payload missing six required fields. -/
theorem create_validation_names_all_missing_witness :
    (("attendee" ∈ account_types) ∧
     (∀ kv ∈ attendeePartial, kv.1 ∈ schemaGetVal (Val.vStr "attendee")) ∧
     (∃ k ∈ required_attributes (Val.vStr "attendee"), k ∉ dictKeys attendeePartial)) ∧
    validate_create_request ⟨Val.vStr "create", Val.vStr "attendee", Val.vStr "1234567890",
        some (.dict attendeePartial)⟩ =
      .ok (false,
        "Missing required attributes: user_id, first_name, last_name, street_address, city, postcode.") :=
  ⟨⟨by decide, by decide, by decide⟩,
   (create_validation_names_all_missing (Val.vStr "create") (Val.vStr "1234567890")
     "attendee" attendeePartial (by decide) (by decide) (by decide)).1⟩

/-- C9, counterexample: a create request for an artist whose mapping lacks
`user_id` but holds an undefined attribute is rejected with the
undefined-attributes message, which does not mention `user_id` at all. -/
theorem create_missing_user_id_masked_by_undefined :
    "user_id" ∉ dictKeys [("bogus", Val.vStr "x")] ∧
    validate_create_request ⟨Val.vStr "create", Val.vStr "artist", Val.vStr "1234567890",
        some (.dict [("bogus", Val.vStr "x")])⟩ =
      .ok (false, "Additional, undefined attributes cannot be specified: bogus.") ∧
    ¬(("user_id".data) <:+:
        ("Additional, undefined attributes cannot be specified: bogus.".data)) :=
  ⟨by decide, rfl, by decide⟩

/-- C9, amended: for every managed account type and attribute mapping whose
keys lie within the full field set and lack `user_id`,
`validate_create_request` rejects and the enumerated missing attributes
contain `user_id`: the key is required and is not stripped before
reconciliation, although the database assigns it. -/
theorem create_validation_requires_user_id
    (f ident : Val) (ot : String) (attrs : Attrs)
    (hot : ot ∈ account_types)
    (hsub : ∀ kv ∈ attrs, kv.1 ∈ schemaGetVal (Val.vStr ot))
    (hno : "user_id" ∉ dictKeys attrs) :
    validate_create_request ⟨f, Val.vStr ot, ident, some (.dict attrs)⟩ =
      .ok (false, "Missing required attributes: "
        ++ String.intercalate ", " (missing_attributes attrs (Val.vStr ot)) ++ ".") ∧
    "user_id" ∈ missing_attributes attrs (Val.vStr ot) := by
  have hkne : ∀ kv ∈ attrs, kv.1 ≠ "" :=
    fun kv hkv => schema_fields_ne_empty hot _ (hsub kv hkv)
  have huid : "user_id" ∈ missing_attributes attrs (Val.vStr ot) := by
    rw [missing_attributes, List.mem_filter]
    exact ⟨user_id_required hot, by simp [hno]⟩
  have hm2 : missing_attributes attrs (Val.vStr ot) ≠ [] := by
    intro hnil
    rw [hnil] at huid
    cases huid
  refine ⟨?_, huid⟩
  rw [validate_create_request_eq_gen, filter_nonempty_keys_eq_self hkne,
    check_required_attributes_missing (undefined_attributes_eq_nil hsub) hm2]

/-- C9, witness for the amended theorem at a concrete attendee payload. -/
theorem create_validation_requires_user_id_witness :
    (("attendee" ∈ account_types) ∧
     (∀ kv ∈ attendeePartial, kv.1 ∈ schemaGetVal (Val.vStr "attendee")) ∧
     "user_id" ∉ dictKeys attendeePartial) ∧
    "user_id" ∈ missing_attributes attendeePartial (Val.vStr "attendee") :=
  ⟨⟨by decide, by decide, by decide⟩,
   (create_validation_requires_user_id (Val.vStr "create") (Val.vStr "1234567890")
     "attendee" attendeePartial (by decide) (by decide) (by decide)).2⟩

/-- C5, counterexample: a venue create payload containing the key `""`, which
lies outside the full field set, is accepted rather than rejected, because
`extract_and_prepare_attributes` silently drops falsy (empty-string) keys. -/
theorem empty_key_outside_schema_accepted :
    (("", Val.vStr "x") ∈ venueEmptyKey ∧ "" ∉ schemaGetVal (Val.vStr "venue")) ∧
    validate_create_request ⟨Val.vStr "create", Val.vStr "venue", Val.vStr "1234567890",
        some (.dict venueEmptyKey)⟩ = .ok (true, "Request is valid.") :=
  ⟨by decide, rfl⟩

/-- C5, amended: for every managed account type and attribute mapping holding
at least one non-empty key outside the type's full field set, both
`validate_create_request` and `validate_update_request` reject with the
undefined-attributes message, and the enumerated list contains every
non-empty offending key. -/
theorem create_update_reject_undefined_keys
    (f ident : Val) (ot : String) (attrs : Attrs)
    (hot : ot ∈ account_types)
    (hbad : ∃ kv ∈ attrs, kv.1 ≠ "" ∧ kv.1 ∉ schemaGetVal (Val.vStr ot)) :
    validate_create_request ⟨f, Val.vStr ot, ident, some (.dict attrs)⟩ =
      .ok (false, "Additional, undefined attributes cannot be specified: "
        ++ String.intercalate ", "
          (undefined_attributes (attrs.filter (fun kv => !(kv.1 == ""))) (Val.vStr ot))
        ++ ".") ∧
    validate_update_request ⟨f, Val.vStr ot, ident, some (.dict attrs)⟩ =
      .ok (false, "Additional, undefined attributes cannot be specified: "
        ++ String.intercalate ", "
          (undefined_attributes (attrs.filter (fun kv => !(kv.1 == ""))) (Val.vStr ot))
        ++ ". ") ∧
    ∀ k, k ≠ "" → k ∈ dictKeys attrs → k ∉ schemaGetVal (Val.vStr ot) →
      k ∈ undefined_attributes (attrs.filter (fun kv => !(kv.1 == ""))) (Val.vStr ot) := by
  obtain ⟨kv, hkv, hk1, hk2⟩ := hbad
  have hkva : kv ∈ attrs.filter (fun kv => !(kv.1 == "")) :=
    List.mem_filter.mpr ⟨hkv, by simp [hk1]⟩
  have hmemu : kv.1 ∈
      undefined_attributes (attrs.filter (fun kv => !(kv.1 == ""))) (Val.vStr ot) := by
    rw [undefined_attributes, List.mem_filter]
    exact ⟨List.mem_map_of_mem Prod.fst hkva, by simp [hk2]⟩
  have hund_ne :
      undefined_attributes (attrs.filter (fun kv => !(kv.1 == ""))) (Val.vStr ot) ≠ [] := by
    intro hnil
    rw [hnil] at hmemu
    cases hmemu
  have hvane : (attrs.filter (fun kv => !(kv.1 == ""))).isEmpty = false := by
    have hne : attrs.filter (fun kv => !(kv.1 == "")) ≠ [] := List.ne_nil_of_mem hkva
    simp [hne]
  refine ⟨?_, ?_, ?_⟩
  · rw [validate_create_request_eq_gen, check_required_attributes_undef hund_ne]
  · rw [validate_update_request_eq_gen]
    simp [hvane, check_for_extra_attributes_undef hund_ne]
  · intro k hk0 hkm hks
    rw [dictKeys, List.mem_map] at hkm
    obtain ⟨kv2, hkv2, rfl⟩ := hkm
    have hkva2 : kv2 ∈ attrs.filter (fun kv => !(kv.1 == "")) :=
      List.mem_filter.mpr ⟨hkv2, by simp [hk0]⟩
    rw [undefined_attributes, List.mem_filter]
    exact ⟨List.mem_map_of_mem Prod.fst hkva2, by simp [hks]⟩

/-- C5, witness for the amended theorem: two undefined keys are both named,
for create and for update. -/
theorem create_update_reject_undefined_keys_witness :
    (("venue" ∈ account_types) ∧
     (∃ kv ∈ [("bogus", Val.vStr "x"), ("extra2", Val.vStr "y")],
        kv.1 ≠ "" ∧ kv.1 ∉ schemaGetVal (Val.vStr "venue"))) ∧
    validate_create_request ⟨Val.vStr "create", Val.vStr "venue", Val.vStr "1234567890",
        some (.dict [("bogus", Val.vStr "x"), ("extra2", Val.vStr "y")])⟩ =
      .ok (false, "Additional, undefined attributes cannot be specified: bogus, extra2.") ∧
    validate_update_request ⟨Val.vStr "update", Val.vStr "venue", Val.vStr "1234567890",
        some (.dict [("bogus", Val.vStr "x"), ("extra2", Val.vStr "y")])⟩ =
      .ok (false, "Additional, undefined attributes cannot be specified: bogus, extra2. ") :=
  ⟨⟨by decide, by decide⟩,
   (create_update_reject_undefined_keys (Val.vStr "create") (Val.vStr "1234567890")
     "venue" [("bogus", Val.vStr "x"), ("extra2", Val.vStr "y")] (by decide) (by decide)).1,
   (create_update_reject_undefined_keys (Val.vStr "update") (Val.vStr "1234567890")
     "venue" [("bogus", Val.vStr "x"), ("extra2", Val.vStr "y")] (by decide) (by decide)).2.1⟩

/-- C6: for every managed account type, `validate_update_request` accepts
every non-empty mapping whose keys lie in the full field set and whose values
are non-empty (required-field coverage not needed), and rejects the empty
mapping. -/
theorem update_validation_partial_and_empty
    (f ident : Val) (ot : String) (attrs : Attrs)
    (hot : ot ∈ account_types) :
    ((attrs ≠ [] ∧ (∀ kv ∈ attrs, kv.1 ∈ schemaGetVal (Val.vStr ot)) ∧
        (∀ kv ∈ attrs, kv.2 ≠ Val.vStr "")) →
      validate_update_request ⟨f, Val.vStr ot, ident, some (.dict attrs)⟩ =
        .ok (true, "Request is valid.")) ∧
    validate_update_request ⟨f, Val.vStr ot, ident, some (.dict [])⟩ =
      .ok (false, "At least one attribute must be specified for update.") := by
  constructor
  · rintro ⟨h1, h2, h3⟩
    have hkne : ∀ kv ∈ attrs, kv.1 ≠ "" :=
      fun kv hkv => schema_fields_ne_empty hot _ (h2 kv hkv)
    have hie : attrs.isEmpty = false := by simp [h1]
    rw [validate_update_request_eq_gen, filter_nonempty_keys_eq_self hkne]
    simp [hie, check_for_extra_attributes_ok (undefined_attributes_eq_nil h2)
      (empty_value_attributes_eq_nil h3)]
  · rfl

/-- C6, witness: a one-field venue update covering no required field is
accepted; the empty mapping is rejected. -/
theorem update_validation_partial_and_empty_witness :
    (("venue" ∈ account_types) ∧ ([("bio", Val.vStr "hello")] : Attrs) ≠ [] ∧
     (∀ kv ∈ ([("bio", Val.vStr "hello")] : Attrs), kv.1 ∈ schemaGetVal (Val.vStr "venue")) ∧
     (∀ kv ∈ ([("bio", Val.vStr "hello")] : Attrs), kv.2 ≠ Val.vStr "") ∧
     (∀ kv ∈ ([("bio", Val.vStr "hello")] : Attrs),
        kv.1 ∉ required_attributes (Val.vStr "venue"))) ∧
    validate_update_request ⟨Val.vStr "update", Val.vStr "venue", Val.vStr "1234567890",
        some (.dict [("bio", Val.vStr "hello")])⟩ = .ok (true, "Request is valid.") ∧
    validate_update_request ⟨Val.vStr "update", Val.vStr "venue", Val.vStr "1234567890",
        some (.dict [])⟩ =
      .ok (false, "At least one attribute must be specified for update.") :=
  ⟨⟨by decide, by decide, by decide, by decide, by decide⟩,
   (update_validation_partial_and_empty (Val.vStr "update") (Val.vStr "1234567890")
     "venue" [("bio", Val.vStr "hello")] (by decide)).1 ⟨by decide, by decide, by decide⟩,
   (update_validation_partial_and_empty (Val.vStr "update") (Val.vStr "1234567890")
     "venue" [("bio", Val.vStr "hello")] (by decide)).2⟩

lemma schemaLookup_eq_nil {ot : String} (h : ot ∉ attributes_schema.map Prod.fst) :
    schemaLookup ot = [] := by
  rw [schemaLookup]
  have hf : attributes_schema.find? (fun p => p.1 == ot) = none := by
    rw [List.find?_eq_none]
    intro p hp
    simp only [beq_iff_eq]
    intro he
    exact h (he ▸ List.mem_map_of_mem Prod.fst hp)
  rw [hf]
  rfl

/-- C10: for every object type absent from the attribute schema,
`check_for_extra_attributes` rejects every non-empty attribute mapping,
naming every supplied key as undefined, and accepts the empty mapping. -/
theorem check_extra_unknown_type_strict
    (ot : String) (hot : ot ∉ attributes_schema.map Prod.fst) (va : Attrs) :
    (va ≠ [] →
      check_for_extra_attributes va (Val.vStr ot) =
        (false, "Additional, undefined attributes cannot be specified: "
          ++ String.intercalate ", " (dictKeys va) ++ ". ") ∧
      ∀ k ∈ dictKeys va, k ∈ undefined_attributes va (Val.vStr ot)) ∧
    check_for_extra_attributes [] (Val.vStr ot) = (true, "") := by
  have hsch : schemaGetVal (Val.vStr ot) = [] := by
    simp [schemaGetVal, schemaLookup_eq_nil hot]
  have hund : undefined_attributes va (Val.vStr ot) = dictKeys va := by
    rw [undefined_attributes, hsch]
    exact List.filter_eq_self.mpr (fun a _ => rfl)
  constructor
  · intro hne
    have hundne : undefined_attributes va (Val.vStr ot) ≠ [] := by
      rw [hund]
      intro hnil
      exact hne (by simpa [dictKeys] using hnil)
    refine ⟨?_, ?_⟩
    · rw [check_for_extra_attributes_undef hundne, hund]
    · intro k hk
      rw [hund]
      exact hk
  · rfl

/-- C10, witness: an unknown object type rejects a two-key mapping naming
both keys, and accepts the empty mapping. -/
theorem check_extra_unknown_type_strict_witness :
    ("user" ∉ attributes_schema.map Prod.fst) ∧
    check_for_extra_attributes [("x", Val.vStr "1"), ("y", Val.vNone)] (Val.vStr "user") =
      (false, "Additional, undefined attributes cannot be specified: x, y. ") ∧
    check_for_extra_attributes [] (Val.vStr "user") = (true, "") :=
  ⟨by decide,
   ((check_extra_unknown_type_strict "user" (by decide)
     [("x", Val.vStr "1"), ("y", Val.vNone)]).1 (by decide)).1,
   (check_extra_unknown_type_strict "user" (by decide) []).2⟩

lemma queried_attributes_loop_fst_iff (valid : List String) (otv : Val) (qa : Attrs) :
    (queried_attributes_loop valid otv qa).1 = true ↔
      ∀ kv ∈ qa, valid.contains kv.1 = true ∧ kv.2.truthy = true := by
  induction qa with
  | nil => simp [queried_attributes_loop]
  | cons kv rest ih =>
    obtain ⟨a, v⟩ := kv
    by_cases hm : a ∈ valid
    · have hc : valid.contains a = true := List.elem_eq_true_of_mem hm
      cases ht : v.truthy with
      | false => simp [queried_attributes_loop, hc, hm, ht]
      | true => simp [queried_attributes_loop, hc, hm, ht, ih]
    · have hc : valid.contains a = false := by simp [hm]
      simp [queried_attributes_loop, hc, hm]

/-- C7: for every managed account type and mapping-shaped get attributes,
`validate_get_request` returns a verdict (never raises), and it accepts
exactly when the mapping is non-empty, every key is in the schema and every
flag is truthy. -/
theorem get_validation_accepts_iff
    (f ident : Val) (ot : String) (qa : Attrs)
    (hot : ot ∈ account_types) :
    (∃ b m, validate_get_request ⟨f, Val.vStr ot, ident, some (.dict qa)⟩ =
      Except.ok (b, m)) ∧
    (validate_get_request ⟨f, Val.vStr ot, ident, some (.dict qa)⟩ =
        Except.ok (true, "Request is valid.") ↔
      (qa ≠ [] ∧ ∀ kv ∈ qa, kv.1 ∈ schemaGetVal (Val.vStr ot) ∧ kv.2.truthy = true)) := by
  have hacc := account_not_non_account hot
  by_cases hqa : qa = []
  · subst hqa
    refine ⟨⟨false, "Attributes must be provided for querying.", rfl⟩, ?_⟩
    constructor
    · intro heq
      exact absurd heq (by simp [validate_get_request, extract_and_prepare_attributes_for_get])
    · rintro ⟨hne, -⟩
      exact absurd rfl hne
  · have hie : qa.isEmpty = false := by simp [hqa]
    have hvq : validate_queried_attributes qa (Val.vStr ot) =
        queried_attributes_loop (schemaGetVal (Val.vStr ot)) (Val.vStr ot) qa := by
      simp [validate_queried_attributes, hacc.1, hacc.2, hie]
    have hiff := queried_attributes_loop_fst_iff (schemaGetVal (Val.vStr ot)) (Val.vStr ot) qa
    have hmemiff :
        (∀ kv ∈ qa, (schemaGetVal (Val.vStr ot)).contains kv.1 = true ∧ kv.2.truthy = true) ↔
        (∀ kv ∈ qa, kv.1 ∈ schemaGetVal (Val.vStr ot) ∧ kv.2.truthy = true) := by
      constructor <;> intro h kv hkv <;> rcases h kv hkv with ⟨h1, h2⟩ <;>
        exact ⟨by simpa using h1, h2⟩
    rcases hloop : queried_attributes_loop (schemaGetVal (Val.vStr ot)) (Val.vStr ot) qa
      with ⟨b, m⟩
    rw [hloop] at hiff
    cases b with
    | false =>
      have h1 : validate_queried_attributes qa (Val.vStr ot) = (false, m) := by
        rw [hvq, hloop]
      have hres : validate_get_request ⟨f, Val.vStr ot, ident, some (.dict qa)⟩ =
          Except.ok (false, m) := by
        simp [validate_get_request, extract_and_prepare_attributes_for_get, hie, h1]
      refine ⟨⟨false, m, hres⟩, ?_⟩
      rw [hres]
      constructor
      · intro heq
        exact absurd heq (by simp)
      · rintro ⟨-, hall⟩
        exact absurd (hiff.mpr (hmemiff.mpr hall)) (by simp)
    | true =>
      have h1 : validate_queried_attributes qa (Val.vStr ot) = (true, m) := by
        rw [hvq, hloop]
      have hres : validate_get_request ⟨f, Val.vStr ot, ident, some (.dict qa)⟩ =
          Except.ok (true, "Request is valid.") := by
        simp [validate_get_request, extract_and_prepare_attributes_for_get, hie, h1]
      refine ⟨⟨true, "Request is valid.", hres⟩, ?_⟩
      rw [hres]
      constructor
      · intro _
        exact ⟨hqa, hmemiff.mp (hiff.mp rfl)⟩
      · intro _
        rfl

/-- C7, witness: a two-flag artist get mapping with all-true flags is
accepted; the iff holds at this concrete input. -/
theorem get_validation_accepts_iff_witness :
    ("artist" ∈ account_types) ∧
    (∃ b m, validate_get_request ⟨Val.vStr "get", Val.vStr "artist", Val.vStr "1234567890",
        some (.dict [("artist_name", Val.vBool true), ("genres", Val.vBool true)])⟩ =
      Except.ok (b, m)) ∧
    (validate_get_request ⟨Val.vStr "get", Val.vStr "artist", Val.vStr "1234567890",
        some (.dict [("artist_name", Val.vBool true), ("genres", Val.vBool true)])⟩ =
        Except.ok (true, "Request is valid.") ↔
      (([("artist_name", Val.vBool true), ("genres", Val.vBool true)] : Attrs) ≠ [] ∧
       ∀ kv ∈ ([("artist_name", Val.vBool true), ("genres", Val.vBool true)] : Attrs),
         kv.1 ∈ schemaGetVal (Val.vStr "artist") ∧ kv.2.truthy = true)) :=
  ⟨by decide,
   get_validation_accepts_iff (Val.vStr "get") (Val.vStr "1234567890") "artist"
     [("artist_name", Val.vBool true), ("genres", Val.vBool true)] (by decide)⟩

/-- C2: at a concrete venue create request that passes validation and whose
insert succeeds, a failing confirmation-email send is not swallowed: the
caller receives no user id and an exception message, instead of the user id
and success message it receives when the send succeeds. -/
theorem create_account_email_failure_surfaced :
    validate_request venueCreateReq = .ok (true, "Request is valid.") ∧
    create_account venueCreateReq (.ok venueInsertOk) (.ok ()) =
      .ok (Val.vStr "42", "Account creation was successful.") ∧
    create_account venueCreateReq (.ok venueInsertOk)
        (.error (.exc "SMTP connection failed")) =
      .ok (Val.vNone, "An exception occurred: SMTP connection failed") :=
  ⟨rfl, rfl, rfl⟩

/-- C3: the empty-string identifier is rejected with a reason, but a
non-string identifier (`None`, as a missing identifier is read, or a number)
makes `validate_request` raise `AttributeError` from `identifier.isdigit()`
instead of returning a verdict. -/
theorem validate_request_non_string_identifier_raises :
    validate_request ⟨Val.vStr "get", Val.vStr "venue", Val.vStr "",
        some (.dict [("bio", Val.vBool true)])⟩ =
      .ok (false, "Invalid or missing unique ID.") ∧
    validate_request ⟨Val.vStr "get", Val.vStr "venue", Val.vNone,
        some (.dict [("bio", Val.vBool true)])⟩ =
      .error (.attributeError "isdigit") ∧
    validate_request ⟨Val.vStr "get", Val.vStr "venue", Val.vInt 12345678901,
        some (.dict [("bio", Val.vBool true)])⟩ =
      .error (.attributeError "isdigit") :=
  ⟨rfl, rfl, rfl⟩

lemma roundtrip_check_ok_true_iff (row : Attrs) (upd : Attrs) :
    roundtrip_check row upd = .ok true ↔ ∀ kv ∈ upd, dictGet row kv.1 = some kv.2 := by
  induction upd with
  | nil => simp [roundtrip_check]
  | cons kv rest ih =>
    obtain ⟨k, v⟩ := kv
    cases hg : dictGet row k with
    | none => simp [roundtrip_check, hg]
    | some w =>
      by_cases hw : w = v
      · subst hw
        simp [roundtrip_check, hg, ih]
      · simp [roundtrip_check, hg, hw]

/-- C8: for every validated update request with a mapping payload and every
store response, `update_account` succeeds exactly when at least one non-null
field was submitted and the store echoes back a row in which every submitted
key is present and equal to the submitted value. -/
theorem update_account_success_iff
    (r : Request) (attrs : Attrs) (res : Except PyError (List Attrs)) (vmsg : String)
    (hv : validate_request r = .ok (true, vmsg))
    (ha : r.attributes = some (.dict attrs)) :
    ∃ b m, update_account r res = .ok (b, m) ∧
      (b = true ↔
        (attrs.filter (fun kv => !(kv.2 == Val.vNone)) ≠ [] ∧
         ∃ row rest, res = .ok (row :: rest) ∧
           ∀ kv ∈ attrs.filter (fun kv => !(kv.2 == Val.vNone)),
             dictGet row kv.1 = some kv.2)) := by
  by_cases hd : attrs.filter (fun kv => !(kv.2 == Val.vNone)) = []
  · have hie : (attrs.filter (fun kv => !(kv.2 == Val.vNone))).isEmpty = true := by
      simp [hd]
    refine ⟨false, "No valid attributes provided for update.", ?_, by simp [hd]⟩
    simp only [update_account, hv, ha]
    simp [hie]
  · have hie : (attrs.filter (fun kv => !(kv.2 == Val.vNone))).isEmpty = false := by
      simp [hd]
    cases res with
    | error e =>
      refine ⟨false, "An exception occurred: " ++ e.str, ?_, by simp⟩
      simp only [update_account, hv, ha]
      simp [hie]
    | ok rows =>
      cases rows with
      | nil =>
        refine ⟨false, "Failed to update account: Record not found.", ?_, by simp⟩
        simp only [update_account, hv, ha]
        simp [hie]
      | cons row rest =>
        cases hrt : roundtrip_check row (attrs.filter (fun kv => !(kv.2 == Val.vNone))) with
        | error e =>
          refine ⟨false, "An exception occurred: " ++ e.str, ?_, ?_⟩
          · simp only [update_account, hv, ha]
            simp [hie, hrt]
          · constructor
            · intro h
              exact absurd h (by simp)
            · rintro ⟨-, row2, rest2, heq, hall⟩
              injection heq with h3
              injection h3 with h4 h5
              subst h4
              have := (roundtrip_check_ok_true_iff row
                (attrs.filter (fun kv => !(kv.2 == Val.vNone)))).mpr hall
              rw [hrt] at this
              exact absurd this (by simp)
        | ok b2 =>
          cases b2 with
          | false =>
            refine ⟨false,
              "Failed to update account: Attributes not updated as expected.", ?_, ?_⟩
            · simp only [update_account, hv, ha]
              simp [hie, hrt]
            · constructor
              · intro h
                exact absurd h (by simp)
              · rintro ⟨-, row2, rest2, heq, hall⟩
                injection heq with h3
                injection h3 with h4 h5
                subst h4
                have := (roundtrip_check_ok_true_iff row
                  (attrs.filter (fun kv => !(kv.2 == Val.vNone)))).mpr hall
                rw [hrt] at this
                exact absurd this (by simp)
          | true =>
            refine ⟨true, "Account update was successful.", ?_, ?_⟩
            · simp only [update_account, hv, ha]
              simp [hie, hrt]
            · constructor
              · intro _
                exact ⟨hd, row, rest, rfl,
                  (roundtrip_check_ok_true_iff row
                    (attrs.filter (fun kv => !(kv.2 == Val.vNone)))).mp hrt⟩
              · intro _
                rfl

/-- C8, witness: a concrete venue update whose store response echoes the
submitted field back unchanged. -/
theorem update_account_success_iff_witness :
    (validate_request ⟨Val.vStr "update", Val.vStr "venue", Val.vStr "1234567890",
        some (.dict [("bio", Val.vStr "hi")])⟩ = .ok (true, "Request is valid.")) ∧
    (∃ b m, update_account ⟨Val.vStr "update", Val.vStr "venue", Val.vStr "1234567890",
          some (.dict [("bio", Val.vStr "hi")])⟩
        (.ok [[("user_id", Val.vStr "1"), ("bio", Val.vStr "hi")]]) = .ok (b, m) ∧
      (b = true ↔
        (([("bio", Val.vStr "hi")] : Attrs).filter (fun kv => !(kv.2 == Val.vNone)) ≠ [] ∧
         ∃ row rest,
           (Except.ok [[("user_id", Val.vStr "1"), ("bio", Val.vStr "hi")]] :
              Except PyError (List Attrs)) = .ok (row :: rest) ∧
           ∀ kv ∈ ([("bio", Val.vStr "hi")] : Attrs).filter (fun kv => !(kv.2 == Val.vNone)),
             dictGet row kv.1 = some kv.2))) :=
  ⟨rfl,
   update_account_success_iff
     ⟨Val.vStr "update", Val.vStr "venue", Val.vStr "1234567890",
       some (.dict [("bio", Val.vStr "hi")])⟩
     [("bio", Val.vStr "hi")]
     (.ok [[("user_id", Val.vStr "1"), ("bio", Val.vStr "hi")]])
     "Request is valid." rfl rfl⟩
